import Mathlib

/-!
Verification of the MCP factory proxy (scripts/mcp_factory/server.py).

This file shallowly embeds the transport-abstracted RPC proxy: the registry
lookup, the stdio (process) transport with its handshake and unconditional
cleanup, the SSE (HTTP) transport, the JSON-RPC envelope codec and the two
result formatters.  Python dictionaries and JSON payloads are modelled by the
inductive type JVal; Python exceptions by PyExn; the outcomes of the I/O
actions a call performs (process spawn, pipe writes, timed reads, the HTTP
POST) are supplied by oracle structures, so that a run of the embedded code is
a pure function of the descriptor, the request and the oracle.  Observable
side effects (spawning a child, posting an HTTP request, terminating, waiting
for and killing the child) are recorded in an event trace.

Modelling conventions, stated once:
* JSON numbers are modelled as integers; every number the proxy itself
  produces (request ids) is an integer.
* A timed read either times out, yields a line that structured-text decoding
  rejects (badFrame), or yields a line decoding to a value (frame v).
* The registry is passed in already loaded: the registry store is an external
  collaborator and its file I/O is out of scope.
* The audit log write in remote_call is pure I/O with no observable effect on
  the call result and is not modelled.
* Exception messages rendered into facade strings are representative; no
  theorem below depends on the text of a generic exception message.
-/

/-- JSON-like values: the payloads exchanged with downstream servers. -/
inductive JVal where
  | null
  | bool (b : Bool)
  | num (n : Int)
  | str (s : String)
  | arr (elems : List JVal)
  | obj (fields : List (String × JVal))

/-- The Python exceptions the proxy code can raise. -/
inductive PyExn where
  | timeoutError
  | jsonDecodeError
  | keyError (key : String)
  | typeError
  | attributeError
  | osError
  | httpTimeout
  | connectError

/-- Python `d.get(k, default)`: attribute error when the receiver is not a dict. -/
def pyGetD (v : JVal) (k : String) (d : JVal) : Except PyExn JVal :=
  match v with
  | JVal.obj kvs => Except.ok ((kvs.lookup k).getD d)
  | _ => Except.error PyExn.attributeError

/-- Python `d[k]`: key error when absent, type error when the receiver is not a dict. -/
def pyIndex (v : JVal) (k : String) : Except PyExn JVal :=
  match v with
  | JVal.obj kvs =>
    match kvs.lookup k with
    | some x => Except.ok x
    | none => Except.error (PyExn.keyError k)
  | _ => Except.error PyExn.typeError

/-- Python `k in v`: key test on dicts, membership on lists, substring on strings. -/
def pyContains (v : JVal) (k : String) : Except PyExn Bool :=
  match v with
  | JVal.obj kvs => Except.ok (kvs.lookup k).isSome
  | JVal.arr xs => Except.ok (xs.any fun x => match x with | JVal.str s => s == k | _ => false)
  | JVal.str s => Except.ok (!((s.splitOn k).length == 1))
  | _ => Except.error PyExn.typeError

/-- Python truthiness of a JSON value. -/
def pyTruthy : JVal → Bool
  | JVal.null => false
  | JVal.bool b => b
  | JVal.num n => !(n == 0)
  | JVal.str s => !s.isEmpty
  | JVal.arr xs => !xs.isEmpty
  | JVal.obj kvs => !kvs.isEmpty

/-- Python iteration `for x in v`: list elements, dict keys, string characters. -/
def pyIter : JVal → Except PyExn (List JVal)
  | JVal.arr xs => Except.ok xs
  | JVal.obj kvs => Except.ok (kvs.map fun kv => JVal.str kv.1)
  | JVal.str s => Except.ok (s.data.map fun c => JVal.str (String.mk [c]))
  | _ => Except.error PyExn.typeError

/-- Python `d.items()`. -/
def pyItems : JVal → Except PyExn (List (String × JVal))
  | JVal.obj kvs => Except.ok kvs
  | _ => Except.error PyExn.attributeError

/-- Dict insertion with Python semantics: a repeated key keeps its first
position and takes the latest value. -/
def dictInsert (kvs : List (String × JVal)) (k : String) (v : JVal) : List (String × JVal) :=
  if (kvs.lookup k).isSome then kvs.map (fun p => if p.1 = k then (k, v) else p)
  else kvs ++ [(k, v)]

mutual

/-- Python `str`/`repr` rendering of a JSON value (used by f-strings). -/
def pyRepr : JVal → String
  | JVal.null => "None"
  | JVal.bool true => "True"
  | JVal.bool false => "False"
  | JVal.num n => toString n
  | JVal.str s => "\x27" ++ s ++ "\x27"
  | JVal.arr xs => "[" ++ String.intercalate ", " (pyReprList xs) ++ "]"
  | JVal.obj kvs => "\x7b" ++ String.intercalate ", " (pyReprFields kvs) ++ "\x7d"

def pyReprList : List JVal → List String
  | [] => []
  | x :: xs => pyRepr x :: pyReprList xs

def pyReprFields : List (String × JVal) → List String
  | [] => []
  | kv :: kvs => ("\x27" ++ kv.1 ++ "\x27: " ++ pyRepr kv.2) :: pyReprFields kvs

end

/-- Python `str(v)` at top level: a string renders as itself, anything else
by its repr. -/
def pyStrTop : JVal → String
  | JVal.str s => s
  | v => pyRepr v

/-- The double-quote character (written by code point to keep literals plain). -/
def dquoteC : Char := Char.ofNat 34

/-- JSON string escaping as performed by json.dumps on the characters the
system exchanges. -/
def jsonEscape (s : String) : String :=
  s.data.foldl (fun acc c =>
    acc ++ (if c == dquoteC then "\\" ++ String.mk [dquoteC]
      else if c == '\\' then "\\\\"
      else if c == '\n' then "\\n"
      else if c == '\t' then "\\t"
      else if c == '\r' then "\\r"
      else String.mk [c])) ""

mutual

/-- Python `json.dumps` with its default separators. -/
def jsonDumps : JVal → String
  | JVal.null => "null"
  | JVal.bool true => "true"
  | JVal.bool false => "false"
  | JVal.num n => toString n
  | JVal.str s => String.mk [dquoteC] ++ jsonEscape s ++ String.mk [dquoteC]
  | JVal.arr xs => "[" ++ String.intercalate ", " (jsonDumpsList xs) ++ "]"
  | JVal.obj kvs => "\x7b" ++ String.intercalate ", " (jsonDumpsFields kvs) ++ "\x7d"

def jsonDumpsList : List JVal → List String
  | [] => []
  | x :: xs => jsonDumps x :: jsonDumpsList xs

def jsonDumpsFields : List (String × JVal) → List String
  | [] => []
  | kv :: kvs =>
    (String.mk [dquoteC] ++ jsonEscape kv.1 ++ String.mk [dquoteC] ++ ": " ++ jsonDumps kv.2)
      :: jsonDumpsFields kvs

end

/-- Representative `str()` rendering of an exception, as interpolated into the
facade error messages.  Only the KeyError rendering is exact; no theorem
depends on the others. -/
def pyExnStr : PyExn → String
  | PyExn.timeoutError => ""
  | PyExn.jsonDecodeError => "Expecting value: line 1 column 1 (char 0)"
  | PyExn.keyError k => "\x27" ++ k ++ "\x27"
  | PyExn.typeError => "type error"
  | PyExn.attributeError => "attribute error"
  | PyExn.osError => "os error"
  | PyExn.httpTimeout => "timed out"
  | PyExn.connectError => "connection failed"

/-! JSON text parsing, modelling json.loads on the arguments string of
remote_call.  Numbers are restricted to integers (see the header note):
fractional or exponent notation is rejected by the model. -/

def isWsChar (c : Char) : Bool := c == ' ' || c == '\n' || c == '\t' || c == '\r'

def lbraceC : Char := Char.ofNat 123

def rbraceC : Char := Char.ofNat 125

def hexVal (c : Char) : Option Nat :=
  let n := c.toNat
  if 48 ≤ n ∧ n ≤ 57 then some (n - 48)
  else if 97 ≤ n ∧ n ≤ 102 then some (n - 87)
  else if 65 ≤ n ∧ n ≤ 70 then some (n - 55)
  else none

/-- Parse the body of a JSON string literal after its opening quote. -/
def parseStrChars : Nat → List Char → Option (List Char × List Char)
  | 0, _ => none
  | _, [] => none
  | fuel+1, c :: cs =>
    if c == dquoteC then some ([], cs)
    else if c == '\\' then
      match cs with
      | [] => none
      | e :: cs2 =>
        let dec : Option (Char × List Char) :=
          if e == dquoteC then some (dquoteC, cs2)
          else if e == '\\' then some ('\\', cs2)
          else if e == '/' then some ('/', cs2)
          else if e == 'n' then some ('\n', cs2)
          else if e == 't' then some ('\t', cs2)
          else if e == 'r' then some ('\r', cs2)
          else if e == 'b' then some (Char.ofNat 8, cs2)
          else if e == 'f' then some (Char.ofNat 12, cs2)
          else if e == 'u' then
            match cs2 with
            | a :: b :: c3 :: d :: rest =>
              match hexVal a, hexVal b, hexVal c3, hexVal d with
              | some ha, some hb, some hc, some hd =>
                some (Char.ofNat (((ha * 16 + hb) * 16 + hc) * 16 + hd), rest)
              | _, _, _, _ => none
            | _ => none
          else none
        match dec with
        | none => none
        | some (ch, rest) =>
          match parseStrChars fuel rest with
          | none => none
          | some (tail, rem) => some (ch :: tail, rem)
    else
      match parseStrChars fuel cs with
      | none => none
      | some (tail, rem) => some (c :: tail, rem)

def digitsToNat (ds : List Char) : Nat :=
  ds.foldl (fun a c => a * 10 + (c.toNat - 48)) 0

def parseNumber (cs : List Char) : Option (JVal × List Char) :=
  let signed := match cs with
    | '-' :: rest => (true, rest)
    | _ => (false, cs)
  let ds := signed.2.takeWhile (fun c => c.isDigit)
  let rest := signed.2.dropWhile (fun c => c.isDigit)
  if ds.isEmpty then none
  else if 1 < ds.length ∧ ds.headD '0' = '0' then none
  else match rest with
    | '.' :: _ => none
    | 'e' :: _ => none
    | 'E' :: _ => none
    | _ =>
      let n : Int := Int.ofNat (digitsToNat ds)
      some (JVal.num (if signed.1 then -n else n), rest)

mutual

def parseVal : Nat → List Char → Option (JVal × List Char)
  | 0, _ => none
  | fuel+1, cs =>
    match cs.dropWhile isWsChar with
    | [] => none
    | c :: rest =>
      if c == dquoteC then
        match parseStrChars (rest.length + 1) rest with
        | none => none
        | some (chars, rem) => some (JVal.str (String.mk chars), rem)
      else if c == lbraceC then
        match rest.dropWhile isWsChar with
        | c2 :: rem => if c2 == rbraceC then some (JVal.obj [], rem) else parseMembers fuel [] rest
        | [] => none
      else if c == '[' then
        match rest.dropWhile isWsChar with
        | c2 :: rem => if c2 == ']' then some (JVal.arr [], rem) else parseElems fuel [] rest
        | [] => none
      else if c == 't' then
        match rest with
        | 'r' :: 'u' :: 'e' :: rem => some (JVal.bool true, rem)
        | _ => none
      else if c == 'f' then
        match rest with
        | 'a' :: 'l' :: 's' :: 'e' :: rem => some (JVal.bool false, rem)
        | _ => none
      else if c == 'n' then
        match rest with
        | 'u' :: 'l' :: 'l' :: rem => some (JVal.null, rem)
        | _ => none
      else parseNumber (c :: rest)

def parseMembers : Nat → List (String × JVal) → List Char → Option (JVal × List Char)
  | 0, _, _ => none
  | fuel+1, acc, cs =>
    match cs.dropWhile isWsChar with
    | c :: rest =>
      if c == dquoteC then
        match parseStrChars (rest.length + 1) rest with
        | none => none
        | some (kcs, rem) =>
          match rem.dropWhile isWsChar with
          | ':' :: rem2 =>
            match parseVal fuel rem2 with
            | none => none
            | some (v, rem3) =>
              let acc2 := dictInsert acc (String.mk kcs) v
              match rem3.dropWhile isWsChar with
              | ',' :: rem4 => parseMembers fuel acc2 rem4
              | c4 :: rem4 => if c4 == rbraceC then some (JVal.obj acc2, rem4) else none
              | [] => none
          | _ => none
      else none
    | [] => none

def parseElems : Nat → List JVal → List Char → Option (JVal × List Char)
  | 0, _, _ => none
  | fuel+1, acc, cs =>
    match parseVal fuel cs with
    | none => none
    | some (v, rem) =>
      match rem.dropWhile isWsChar with
      | ',' :: rem2 => parseElems fuel (acc ++ [v]) rem2
      | c :: rem2 => if c == ']' then some (JVal.arr (acc ++ [v]), rem2) else none
      | [] => none

end

/-- Python `json.loads` on a full document (integers-only numbers, see above). -/
def jsonParse (s : String) : Option JVal :=
  match parseVal (s.data.length + 1) s.data with
  | none => none
  | some (v, rem) => if (rem.dropWhile isWsChar).isEmpty then some v else none

/-! The data model: a registry entry as stored by registry_add / scaffolding.
Only the fields the proxy reads are modelled; description, managed and the
timestamps are never read on a call path.  A missing command / args / env /
url key is `none` (respectively `[]`), matching the optional keys of the
stored dict; transport is always written by every registry mutation. -/

/-- One server descriptor from the registry (the fields the proxy reads). -/
structure ServerEntry where
  transport : String
  command : Option String
  args : List String
  url : Option String
  env : List (String × String)

/-- Observable side effects of one proxy call. -/
inductive Event where
  | spawn (cmd : List String)
  | sendLine (line : String)
  | httpPost (url : String) (headers : List (String × String)) (body : JVal)
  | terminate
  | waitChild
  | kill

/-- Outcome of one timed read from the child's stdout: the read times out,
yields a line that structured-text decoding rejects, or yields a line that
decodes to a value. -/
inductive ReadOutcome where
  | timeout
  | badFrame
  | frame (v : JVal)

/-- Environment of one stdio call: the outcome of each I/O action the call
performs, in program order. -/
structure StdioOracle where
  spawnOk : Bool
  initWriteOk : Bool
  hsRead : ReadOutcome
  notifWriteOk : Bool
  reqWriteOk : Bool
  reqRead : ReadOutcome
  waitExits : Bool

/-- Outcome of the single HTTP POST of the SSE transport. -/
inductive PostOutcome where
  | timeout
  | connectError
  | badBody
  | body (v : JVal)

/-- Environment of one SSE call. -/
structure SseOracle where
  httpxAvailable : Bool
  post : PostOutcome

/-- Environment of one facade call (whichever transport is selected). -/
structure CallOracle where
  stdio : StdioOracle
  sse : SseOracle

/-- The fixed JSON-RPC envelope built for every request
(mirrors _send_jsonrpc and the SSE POST body). -/
def rpcEnvelope (id : Int) (method : String) (params : JVal) : JVal :=
  JVal.obj [("jsonrpc", JVal.str "2.0"), ("id", JVal.num id),
    ("method", JVal.str method), ("params", params)]

/-- The line written by _send_jsonrpc: one JSON object plus a newline. -/
def encode_request (id : Int) (method : String) (params : JVal) : String :=
  jsonDumps (rpcEnvelope id method params) ++ "\n"

/-- The line written by _send_notification: same envelope without an id. -/
def encode_notification (method : String) : String :=
  jsonDumps (JVal.obj [("jsonrpc", JVal.str "2.0"), ("method", JVal.str method)]) ++ "\n"

/-- The fixed params of the handshake request (source lines 482-486). -/
def hsInitParams : JVal :=
  JVal.obj [("protocolVersion", JVal.str "2024-11-05"),
    ("capabilities", JVal.obj []),
    ("clientInfo", JVal.obj [("name", JVal.str "mcp-factory"), ("version", JVal.str "1.0.0")])]

/-- _read_jsonrpc: `json.loads(await wait_for(proc.stdout.readline(), timeout))`.
A timeout raises asyncio.TimeoutError; a line the decoder rejects raises
json.JSONDecodeError; otherwise the decoded value is returned. -/
def _read_jsonrpc (o : ReadOutcome) : Except PyExn JVal :=
  match o with
  | ReadOutcome.timeout => Except.error PyExn.timeoutError
  | ReadOutcome.badFrame => Except.error PyExn.jsonDecodeError
  | ReadOutcome.frame v => Except.ok v

/-! The result formatters (source lines 551-580). -/

/-- One parameter line of _format_tools:
`f"    {pname}: {ptype}" + (f" — {pdesc}" if pdesc else "")`. -/
def formatParam (pname : String) (pschema : JVal) : Except PyExn String :=
  match pyGetD pschema "type" (JVal.str "any") with
  | Except.error e => Except.error e
  | Except.ok ptype =>
    match pyGetD pschema "description" (JVal.str "") with
    | Except.error e => Except.error e
    | Except.ok pdesc =>
      Except.ok ("    " ++ pname ++ ": " ++ pyStrTop ptype ++
        (if pyTruthy pdesc then " — " ++ pyStrTop pdesc else ""))

/-- The params loop of _format_tools over props.items(). -/
def paramLines : List (String × JVal) → Except PyExn (List String)
  | [] => Except.ok []
  | kv :: rest =>
    match formatParam kv.1 kv.2 with
    | Except.error e => Except.error e
    | Except.ok l =>
      match paramLines rest with
      | Except.error e => Except.error e
      | Except.ok ls => Except.ok (l :: ls)

/-- The per-tool body of _format_tools: the tool line followed by its
parameter lines (lines.append then lines.extend). -/
def toolLines (tool : JVal) : Except PyExn (List String) :=
  match pyIndex tool "name" with
  | Except.error e => Except.error e
  | Except.ok nm =>
    match pyGetD tool "description" (JVal.str "") with
    | Except.error e => Except.error e
    | Except.ok desc =>
      match pyGetD tool "inputSchema" (JVal.obj []) with
      | Except.error e => Except.error e
      | Except.ok schema =>
        match pyGetD schema "properties" (JVal.obj []) with
        | Except.error e => Except.error e
        | Except.ok props =>
          match pyItems props with
          | Except.error e => Except.error e
          | Except.ok propList =>
            match paramLines propList with
            | Except.error e => Except.error e
            | Except.ok ps =>
              Except.ok (("  " ++ pyStrTop nm ++ ": " ++ pyStrTop desc) :: ps)

/-- The tools loop of _format_tools. -/
def toolBlocks : List JVal → Except PyExn (List (List String))
  | [] => Except.ok []
  | t :: ts =>
    match toolLines t with
    | Except.error e => Except.error e
    | Except.ok ls =>
      match toolBlocks ts with
      | Except.error e => Except.error e
      | Except.ok rest => Except.ok (ls :: rest)

/-- _format_tools (source lines 551-569). -/
def _format_tools (result : JVal) : Except PyExn String :=
  match pyGetD result "tools" (JVal.arr []) with
  | Except.error e => Except.error e
  | Except.ok tools =>
    if !pyTruthy tools then Except.ok "No tools found on this server."
    else
      match pyIter tools with
      | Except.error e => Except.error e
      | Except.ok ts =>
        match toolBlocks ts with
        | Except.error e => Except.error e
        | Except.ok blocks =>
          Except.ok ("Available tools:\n" ++ String.intercalate "\n" blocks.flatten)

/-- The content loop of _format_call_result.  A text item whose text value is
not a string is reported as a type error here; Python raises the same
TypeError slightly later, at the final join. -/
def callParts : List JVal → Except PyExn (List String)
  | [] => Except.ok []
  | item :: rest =>
    match pyGetD item "type" JVal.null with
    | Except.error e => Except.error e
    | Except.ok t =>
      let part : Except PyExn String :=
        match t with
        | JVal.str s =>
          if s = "text" then
            match pyIndex item "text" with
            | Except.error e => Except.error e
            | Except.ok (JVal.str tx) => Except.ok tx
            | Except.ok _ => Except.error PyExn.typeError
          else Except.ok (jsonDumps item)
        | _ => Except.ok (jsonDumps item)
      match part with
      | Except.error e => Except.error e
      | Except.ok p =>
        match callParts rest with
        | Except.error e => Except.error e
        | Except.ok ps => Except.ok (p :: ps)

/-- _format_call_result (source lines 572-580). -/
def _format_call_result (result : JVal) : Except PyExn String :=
  match pyGetD result "content" (JVal.arr []) with
  | Except.error e => Except.error e
  | Except.ok content =>
    match pyIter content with
    | Except.error e => Except.error e
    | Except.ok items =>
      match callParts items with
      | Except.error e => Except.error e
      | Except.ok parts =>
        Except.ok (if parts.isEmpty then "(empty response)" else String.intercalate "\n" parts)

/-! The process transport (source lines 467-505). -/

/-- The finally block of _stdio_request: terminate, wait up to the grace
period, kill when the wait times out. -/
def stdioCleanup (o : StdioOracle) : List Event :=
  [Event.terminate, Event.waitChild] ++ (if o.waitExits then [] else [Event.kill])

/-- The try body of _stdio_request: handshake, notification, request,
response handling.  The handshake response is read and discarded. -/
def stdioBody (method : String) (params : JVal)
    (formatter : JVal → Except PyExn String) (o : StdioOracle) :
    Except PyExn String × List Event :=
  let e1 := Event.sendLine (encode_request 1 "initialize" hsInitParams)
  if !o.initWriteOk then (Except.error PyExn.osError, [e1]) else
  match _read_jsonrpc o.hsRead with
  | Except.error e => (Except.error e, [e1])
  | Except.ok _ =>
    let e2 := Event.sendLine (encode_notification "notifications/initialized")
    if !o.notifWriteOk then (Except.error PyExn.osError, [e1, e2]) else
    let e3 := Event.sendLine (encode_request 2 method params)
    if !o.reqWriteOk then (Except.error PyExn.osError, [e1, e2, e3]) else
    match _read_jsonrpc o.reqRead with
    | Except.error e => (Except.error e, [e1, e2, e3])
    | Except.ok resp =>
      match pyContains resp "error" with
      | Except.error e => (Except.error e, [e1, e2, e3])
      | Except.ok true =>
        match pyIndex resp "error" with
        | Except.error e => (Except.error e, [e1, e2, e3])
        | Except.ok errv => (Except.ok ("Server error: " ++ pyStrTop errv), [e1, e2, e3])
      | Except.ok false =>
        match pyGetD resp "result" (JVal.obj []) with
        | Except.error e => (Except.error e, [e1, e2, e3])
        | Except.ok r => (formatter r, [e1, e2, e3])

/-- _stdio_request.  Building cmd raises KeyError before the spawn when the
command key is absent; a failing spawn raises before the try block, so the
finally cleanup only covers a successfully spawned child. -/
def _stdio_request (server : ServerEntry) (method : String) (params : JVal)
    (formatter : JVal → Except PyExn String) (o : StdioOracle) :
    Except PyExn String × List Event :=
  match server.command with
  | none => (Except.error (PyExn.keyError "command"), [])
  | some c =>
    if !o.spawnOk then (Except.error PyExn.osError, [Event.spawn (c :: server.args)])
    else
      ((stdioBody method params formatter o).1,
        Event.spawn (c :: server.args) :: (stdioBody method params formatter o).2
          ++ stdioCleanup o)

/-! The remote transport (source lines 508-531). -/

/-- `server["url"].rstrip("/")`. -/
def rstripSlashes (s : String) : String :=
  String.mk ((s.data.reverse.dropWhile (fun c => c == '/')).reverse)

/-- The headers dict of _sse_request: the Authorization bearer header is added
when the env value under AUTH_TOKEN is truthy (a non-empty string). -/
def sseHeaders (env : List (String × String)) : List (String × String) :=
  match env.lookup "AUTH_TOKEN" with
  | some t => if t = "" then [] else [("Authorization", "Bearer " ++ t)]
  | none => []

/-- _sse_request.  A missing httpx module returns an install-hint string; a
missing url key raises KeyError; the POST either fails (httpx timeouts and
network failures are plain Exceptions, not asyncio.TimeoutError) or yields a
body handled like the stdio response. -/
def _sse_request (server : ServerEntry) (method : String) (params : JVal)
    (formatter : JVal → Except PyExn String) (o : SseOracle) :
    Except PyExn String × List Event :=
  if !o.httpxAvailable then
    (Except.ok "Error: httpx not installed. Run: pip install httpx", [])
  else
    match server.url with
    | none => (Except.error (PyExn.keyError "url"), [])
    | some u =>
      let ev := Event.httpPost (rstripSlashes u) (sseHeaders server.env)
        (rpcEnvelope 1 method params)
      match o.post with
      | PostOutcome.timeout => (Except.error PyExn.httpTimeout, [ev])
      | PostOutcome.connectError => (Except.error PyExn.connectError, [ev])
      | PostOutcome.badBody => (Except.error PyExn.jsonDecodeError, [ev])
      | PostOutcome.body data =>
        match pyContains data "error" with
        | Except.error e => (Except.error e, [ev])
        | Except.ok true =>
          match pyIndex data "error" with
          | Except.error e => (Except.error e, [ev])
          | Except.ok errv => (Except.ok ("Server error: " ++ pyStrTop errv), [ev])
        | Except.ok false =>
          match pyGetD data "result" (JVal.obj []) with
          | Except.error e => (Except.error e, [ev])
          | Except.ok r => (formatter r, [ev])

/-! The proxy facade (source lines 160-215). -/

/-- The transport dispatch shared by both facades. -/
def dispatchRequest (server : ServerEntry) (method : String) (params : JVal)
    (formatter : JVal → Except PyExn String) (o : CallOracle) :
    Except PyExn String × List Event :=
  if server.transport = "stdio" then _stdio_request server method params formatter o.stdio
  else if server.transport = "sse" then _sse_request server method params formatter o.sse
  else (Except.ok ("Unknown transport: " ++ server.transport), [])

/-- The except clauses of remote_discover. -/
def catchDiscover (aliasName : String) :
    Except PyExn String × List Event → Except PyExn String × List Event
  | (Except.ok s, evs) => (Except.ok s, evs)
  | (Except.error PyExn.timeoutError, evs) =>
    (Except.ok ("Timeout connecting to \x27" ++ aliasName ++ "\x27. Is the server running?"), evs)
  | (Except.error e, evs) =>
    (Except.ok ("Error discovering tools on \x27" ++ aliasName ++ "\x27: " ++ pyExnStr e), evs)

/-- The except clauses of remote_call. -/
def catchCall (aliasName tool_name : String) :
    Except PyExn String × List Event → Except PyExn String × List Event
  | (Except.ok s, evs) => (Except.ok s, evs)
  | (Except.error PyExn.timeoutError, evs) =>
    (Except.ok ("Timeout calling \x27" ++ tool_name ++ "\x27 on \x27" ++ aliasName ++ "\x27."), evs)
  | (Except.error e, evs) =>
    (Except.ok ("Error calling \x27" ++ tool_name ++ "\x27 on \x27" ++ aliasName ++ "\x27: "
      ++ pyExnStr e), evs)

/-- remote_discover (source lines 160-183), over an already loaded registry. -/
def remote_discover (registry : List (String × ServerEntry)) (aliasName : String)
    (o : CallOracle) : Except PyExn String × List Event :=
  match registry.lookup aliasName with
  | none =>
    (Except.ok ("Server \x27" ++ aliasName
      ++ "\x27 not found. Run registry_list() to see available servers."), [])
  | some server =>
    catchDiscover aliasName (dispatchRequest server "tools/list" (JVal.obj []) _format_tools o)

/-- remote_call (source lines 186-215).  The json.loads of the arguments
string sits outside the try block in the source, so its failure is an escaped
exception, not a caught one. -/
def remote_call (registry : List (String × ServerEntry))
    (aliasName tool_name arguments : String) (o : CallOracle) :
    Except PyExn String × List Event :=
  match registry.lookup aliasName with
  | none => (Except.ok ("Server \x27" ++ aliasName ++ "\x27 not found."), [])
  | some server =>
    match jsonParse arguments with
    | none => (Except.error PyExn.jsonDecodeError, [])
    | some args_dict =>
      let params := JVal.obj [("name", JVal.str tool_name), ("arguments", args_dict)]
      catchCall aliasName tool_name (dispatchRequest server "tools/call" params _format_call_result o)

/-! Spec-side definitions.  The rendering described in section 4.4 of the
spec, written from the spec's words over structured tool and content values;
the C10 theorem relates the source formatters to these. -/

/-- A declared tool parameter as the spec describes it (name, type,
description; an empty description means none was declared). -/
structure ParamSpec where
  pname : String
  ptype : String
  pdesc : String

/-- A tool descriptor as the spec describes it. -/
structure ToolSpec where
  tname : String
  tdesc : String
  tparams : List ParamSpec

/-- The properties entry a declared parameter contributes to the raw mapping. -/
def ParamSpec.toField (p : ParamSpec) : String × JVal :=
  (p.pname, JVal.obj [("type", JVal.str p.ptype), ("description", JVal.str p.pdesc)])

/-- The raw mapping of one tool descriptor. -/
def ToolSpec.toJVal (t : ToolSpec) : JVal :=
  JVal.obj [("name", JVal.str t.tname), ("description", JVal.str t.tdesc),
    ("inputSchema", JVal.obj [("properties", JVal.obj (t.tparams.map ParamSpec.toField))])]

/-- A raw tools/list result mapping carrying the given tools in order. -/
def toolsResult (ts : List ToolSpec) : JVal :=
  JVal.obj [("tools", JVal.arr (ts.map ToolSpec.toJVal))]

/-- Spec wording: one indented line per declared parameter (name, type,
description). -/
def specParamLine (p : ParamSpec) : String :=
  "    " ++ p.pname ++ ": " ++ p.ptype ++ (if p.pdesc.isEmpty then "" else " — " ++ p.pdesc)

/-- Spec wording: one line per tool (name and description) followed by its
parameter lines. -/
def specToolBlock (t : ToolSpec) : List String :=
  ("  " ++ t.tname ++ ": " ++ t.tdesc) :: t.tparams.map specParamLine

/-- Spec wording: the whole tool-list rendering, with the no-tools sentinel
line for an empty sequence. -/
def specToolsText (ts : List ToolSpec) : String :=
  if ts.isEmpty then "No tools found on this server."
  else "Available tools:\n" ++ String.intercalate "\n" (ts.map specToolBlock).flatten

/-- A content item of a tool-call result: a text item, or an item of any
other kind with its remaining fields. -/
inductive ContentItem where
  | text (s : String)
  | other (kind : String) (fields : List (String × JVal))

/-- The raw mapping of one content item. -/
def ContentItem.toJVal : ContentItem → JVal
  | ContentItem.text s => JVal.obj [("type", JVal.str "text"), ("text", JVal.str s)]
  | ContentItem.other kind fields => JVal.obj (("type", JVal.str kind) :: fields)

/-- A raw tools/call result mapping carrying the given content items in order. -/
def callResultJ (items : List ContentItem) : JVal :=
  JVal.obj [("content", JVal.arr (items.map ContentItem.toJVal))]

/-- Spec wording: a text item contributes its literal text, any other kind
its structured form rendered as text. -/
def specPart : ContentItem → String
  | ContentItem.text s => s
  | ContentItem.other kind fields => jsonDumps (JVal.obj (("type", JVal.str kind) :: fields))

/-- Spec wording: the whole tool-call rendering, with the empty-response
sentinel line for an empty sequence. -/
def specCallText (items : List ContentItem) : String :=
  if items.isEmpty then "(empty response)" else String.intercalate "\n" (items.map specPart)

/-- Items classified as some other kind really are another kind. -/
def noTextOther (items : List ContentItem) : Bool :=
  items.all fun it => match it with
    | ContentItem.text _ => true
    | ContentItem.other kind _ => !(kind == "text")

/-! Well-formedness of raw result mappings, following the two shape families
of section 4.4 along the exact access path the formatters take. -/

/-- A per-parameter schema must be a mapping. -/
def wfParamSchema : JVal → Bool
  | JVal.obj _ => true
  | _ => false

/-- A tool entry must be a mapping with a name; its optional inputSchema and
properties must be mappings, with well-formed per-parameter schemas. -/
def wfTool (t : JVal) : Bool :=
  match t with
  | JVal.obj kvs =>
    (kvs.lookup "name").isSome &&
      (match (kvs.lookup "inputSchema").getD (JVal.obj []) with
       | JVal.obj skvs =>
         (match (skvs.lookup "properties").getD (JVal.obj []) with
          | JVal.obj props => props.all fun kv => wfParamSchema kv.2
          | _ => false)
       | _ => false)
  | _ => false

/-- A well-formed tools/list result mapping. -/
def wfToolsResult (r : JVal) : Bool :=
  match r with
  | JVal.obj kvs =>
    match (kvs.lookup "tools").getD (JVal.arr []) with
    | JVal.arr ts => ts.all wfTool
    | _ => false
  | _ => false

/-- A content item must be a mapping; a text item must carry a string text. -/
def wfContentItem (it : JVal) : Bool :=
  match it with
  | JVal.obj kvs =>
    match (kvs.lookup "type").getD JVal.null with
    | JVal.str s =>
      if s = "text" then
        (match kvs.lookup "text" with | some (JVal.str _) => true | _ => false)
      else true
    | _ => true
  | _ => false

/-- A well-formed tools/call result mapping. -/
def wfCallResult (r : JVal) : Bool :=
  match r with
  | JVal.obj kvs =>
    match (kvs.lookup "content").getD (JVal.arr []) with
    | JVal.arr items => items.all wfContentItem
    | _ => false
  | _ => false

/-! Concrete fixtures used by witnesses and counterexamples. -/

/-- A well-formed stdio descriptor. -/
def entryStdio : ServerEntry := ⟨"stdio", some "x", [], none, []⟩

/-- A stdio descriptor violating the section 3 invariant: its command is the
empty string. -/
def entryEmptyCmd : ServerEntry := ⟨"stdio", some "", [], none, []⟩

/-- A stdio descriptor with no command key at all. -/
def entryNoCmd : ServerEntry := ⟨"stdio", none, [], none, []⟩

/-- An sse descriptor whose env carries AUTH_TOKEN with an empty value. -/
def entrySseEmptyTok : ServerEntry := ⟨"sse", none, [], some "http://x", [("AUTH_TOKEN", "")]⟩

/-- An sse descriptor whose env carries a non-empty AUTH_TOKEN. -/
def entrySseTok : ServerEntry := ⟨"sse", none, [], some "http://x/", [("AUTH_TOKEN", "tok")]⟩

/-- An oracle in which every I/O action succeeds with benign values. -/
def oracleOk : CallOracle :=
  ⟨⟨true, true, ReadOutcome.frame (JVal.obj []), true, true,
    ReadOutcome.frame (JVal.obj []), true⟩,
   ⟨true, PostOutcome.body (JVal.obj [])⟩⟩

/-- An oracle in which the spawn itself fails. -/
def oracleSpawnFail : CallOracle :=
  ⟨⟨false, true, ReadOutcome.frame (JVal.obj []), true, true,
    ReadOutcome.frame (JVal.obj []), true⟩,
   ⟨true, PostOutcome.body (JVal.obj [])⟩⟩

/-- An oracle in which the handshake read times out. -/
def oracleHsTimeout : CallOracle :=
  ⟨⟨true, true, ReadOutcome.timeout, true, true,
    ReadOutcome.frame (JVal.obj []), true⟩,
   ⟨true, PostOutcome.body (JVal.obj [])⟩⟩

/-- An oracle in which the request-phase read times out. -/
def oracleReqTimeout : CallOracle :=
  ⟨⟨true, true, ReadOutcome.frame (JVal.obj []), true, true,
    ReadOutcome.timeout, true⟩,
   ⟨true, PostOutcome.body (JVal.obj [])⟩⟩

/-- An oracle whose request-phase response frame carries neither a result nor
an error key. -/
def oracleNoKeys : CallOracle :=
  ⟨⟨true, true, ReadOutcome.frame (JVal.obj []), true, true,
    ReadOutcome.frame (JVal.obj [("jsonrpc", JVal.str "2.0"), ("id", JVal.num 2)]), true⟩,
   ⟨true, PostOutcome.body (JVal.obj [])⟩⟩

/-- An oracle whose request-phase response frame carries an error payload. -/
def oracleErrResp : CallOracle :=
  ⟨⟨true, true, ReadOutcome.frame (JVal.obj []), true, true,
    ReadOutcome.frame (JVal.obj [("error", JVal.obj [("code", JVal.num 1)])]), true⟩,
   ⟨true, PostOutcome.body (JVal.obj [("error", JVal.obj [("code", JVal.num 1)])])⟩⟩

/-! Helper lemmas about the facade exception handlers: every branch returns a
result value and the event trace passes through unchanged. -/

theorem catchDiscover_ok (aliasName : String) (p : Except PyExn String × List Event) :
    ∃ s, (catchDiscover aliasName p).1 = Except.ok s := by
  obtain ⟨r, evs⟩ := p
  cases r with
  | ok s => exact ⟨s, rfl⟩
  | error e => cases e <;> exact ⟨_, rfl⟩

theorem catchDiscover_trace (aliasName : String) (p : Except PyExn String × List Event) :
    (catchDiscover aliasName p).2 = p.2 := by
  obtain ⟨r, evs⟩ := p
  cases r with
  | ok s => rfl
  | error e => cases e <;> rfl

theorem catchCall_ok (aliasName tool_name : String) (p : Except PyExn String × List Event) :
    ∃ s, (catchCall aliasName tool_name p).1 = Except.ok s := by
  obtain ⟨r, evs⟩ := p
  cases r with
  | ok s => exact ⟨s, rfl⟩
  | error e => cases e <;> exact ⟨_, rfl⟩

theorem catchCall_trace (aliasName tool_name : String) (p : Except PyExn String × List Event) :
    (catchCall aliasName tool_name p).2 = p.2 := by
  obtain ⟨r, evs⟩ := p
  cases r with
  | ok s => rfl
  | error e => cases e <;> rfl

/-- Once the spawn has succeeded, the call is the try body followed by the
unconditional finally cleanup. -/
theorem stdio_request_split (server : ServerEntry) (method : String) (params : JVal)
    (formatter : JVal → Except PyExn String) (o : StdioOracle) (c : String)
    (hc : server.command = some c) (hs : o.spawnOk = true) :
    _stdio_request server method params formatter o =
      ((stdioBody method params formatter o).1,
        Event.spawn (c :: server.args) :: (stdioBody method params formatter o).2
          ++ stdioCleanup o) := by
  simp [_stdio_request, hc, hs]

/-- C1: for every process-transport call (remote_discover or remote_call on a
stdio descriptor) in which the child process is successfully spawned, the
cleanup step runs on every exit path: whatever the outcomes of the handshake,
the request and the response decoding, the event trace ends with terminate,
a bounded wait, and a kill when the child has not exited, so no call leaves an
orphaned child running. -/
theorem c1_stdio_cleanup_on_every_exit_path
    (registry : List (String × ServerEntry)) (aliasName tool_name arguments : String)
    (o : CallOracle) (server : ServerEntry) (c : String)
    (hreg : registry.lookup aliasName = some server)
    (ht : server.transport = "stdio")
    (hc : server.command = some c)
    (hs : o.stdio.spawnOk = true) :
    (∃ pre, (remote_discover registry aliasName o).2 = pre ++ stdioCleanup o.stdio) ∧
    (∀ d, jsonParse arguments = some d →
      ∃ pre, (remote_call registry aliasName tool_name arguments o).2
        = pre ++ stdioCleanup o.stdio) := by
  constructor
  · refine ⟨Event.spawn (c :: server.args)
      :: (stdioBody "tools/list" (JVal.obj []) _format_tools o.stdio).2, ?_⟩
    simp [remote_discover, hreg, catchDiscover_trace, dispatchRequest, ht,
      stdio_request_split _ _ _ _ _ _ hc hs]
  · intro d hd
    refine ⟨Event.spawn (c :: server.args)
      :: (stdioBody "tools/call"
          (JVal.obj [("name", JVal.str tool_name), ("arguments", d)])
          _format_call_result o.stdio).2, ?_⟩
    simp [remote_call, hreg, hd, catchCall_trace, dispatchRequest, ht,
      stdio_request_split _ _ _ _ _ _ hc hs]

/-- Witness for C1 at a concrete registry, descriptor and oracle. -/
theorem c1_witness :
    ∃ pre, (remote_discover [("a", entryStdio)] "a" oracleOk).2
      = pre ++ stdioCleanup oracleOk.stdio :=
  (c1_stdio_cleanup_on_every_exit_path [("a", entryStdio)] "a" "t" "\x7b\x7d" oracleOk
    entryStdio "x" rfl rfl rfl rfl).1

/-- C4: for every alias absent from the registry, remote_discover and
remote_call return the not-found outcome and the event trace is empty: no
process spawn and no network call happens. -/
theorem c4_unknown_alias_no_spawn_no_network
    (registry : List (String × ServerEntry)) (aliasName tool_name arguments : String)
    (o : CallOracle) (h : registry.lookup aliasName = none) :
    remote_discover registry aliasName o =
      (Except.ok ("Server \x27" ++ aliasName
        ++ "\x27 not found. Run registry_list() to see available servers."), []) ∧
    remote_call registry aliasName tool_name arguments o =
      (Except.ok ("Server \x27" ++ aliasName ++ "\x27 not found."), []) := by
  constructor
  · simp [remote_discover, h]
  · simp [remote_call, h]

/-- Witness for C4 on the empty registry. -/
theorem c4_witness :
    remote_discover [] "z" oracleOk =
      (Except.ok ("Server \x27" ++ "z"
        ++ "\x27 not found. Run registry_list() to see available servers."), []) ∧
    remote_call [] "z" "t" "\x7b\x7d" oracleOk =
      (Except.ok ("Server \x27" ++ "z" ++ "\x27 not found."), []) :=
  c4_unknown_alias_no_spawn_no_network [] "z" "t" "\x7b\x7d" oracleOk rfl

/-- C2 counterexample: the claim quantifies over every arguments string, but
an arguments string that is not valid structured text makes remote_call raise
an uncaught decode error — the json.loads of the arguments sits outside the
try block — so no result value is returned.  Concrete input: a registered
alias, any tool name, and the single-character arguments string made of one
opening brace. -/
theorem c2_cex_bad_arguments_escape_uncaught :
    (remote_call [("a", entryStdio)] "a" "t" "\x7b" oracleOk).1
      = Except.error PyExn.jsonDecodeError := rfl

/-- C2 as amended: remote_discover always returns a result value, and
remote_call returns a result value for every arguments string that parses as
valid structured text; within the transport call every failure is caught and
re-surfaced as an error outcome. -/
theorem c2_amended_facades_catch_all_transport_failures :
    (∀ (registry : List (String × ServerEntry)) (aliasName : String) (o : CallOracle),
      ∃ s, (remote_discover registry aliasName o).1 = Except.ok s) ∧
    (∀ (registry : List (String × ServerEntry)) (aliasName tool_name arguments : String)
      (o : CallOracle) (d : JVal), jsonParse arguments = some d →
      ∃ s, (remote_call registry aliasName tool_name arguments o).1 = Except.ok s) := by
  constructor
  · intro registry aliasName o
    unfold remote_discover
    cases registry.lookup aliasName with
    | none => exact ⟨_, rfl⟩
    | some server => exact catchDiscover_ok _ _
  · intro registry aliasName tool_name arguments o d hd
    unfold remote_call
    cases registry.lookup aliasName with
    | none => exact ⟨_, rfl⟩
    | some server =>
      rw [hd]
      exact catchCall_ok _ _ _
/-- Witness for the amended C2 at a concrete call. -/
theorem c2_amended_witness :
    ∃ s, (remote_call [("a", entryStdio)] "a" "t" "\x7b\x7d" oracleOk).1 = Except.ok s :=
  c2_amended_facades_catch_all_transport_failures.2 [("a", entryStdio)] "a" "t" "\x7b\x7d"
    oracleOk (JVal.obj []) rfl

/-- C3 counterexample: a descriptor violating the invariant (transport stdio
with an empty command) is not rejected before a spawn is attempted: invoking
the proxy on it records a spawn event for the empty command, so no
InvalidDescriptor rejection happens before the process spawn. -/
theorem c3_cex_empty_command_spawn_attempted :
    entryEmptyCmd.transport = "stdio" ∧ entryEmptyCmd.command = some "" ∧
    (remote_discover [("a", entryEmptyCmd)] "a" oracleSpawnFail).2 = [Event.spawn [""]] :=
  ⟨rfl, rfl, rfl⟩

/-- C3 as amended: there is no InvalidDescriptor validation step.  A stdio
descriptor with no command key (and an sse descriptor with no url key) fails
before any spawn or HTTP request — the lookup failure is caught by the facade
and surfaced as an error result, never a crash, with an empty event trace —
while a descriptor with an empty-string command proceeds to an attempted
spawn whose failure is likewise caught. -/
theorem c3_amended_missing_key_fails_before_any_io
    (registry : List (String × ServerEntry)) (aliasName : String) (o : CallOracle)
    (server : ServerEntry) (hreg : registry.lookup aliasName = some server) :
    (server.transport = "stdio" → server.command = none →
      (∃ s, (remote_discover registry aliasName o).1 = Except.ok s) ∧
      (remote_discover registry aliasName o).2 = []) ∧
    (server.transport = "sse" → server.url = none →
      (∃ s, (remote_discover registry aliasName o).1 = Except.ok s) ∧
      (remote_discover registry aliasName o).2 = []) := by
  constructor
  · intro ht hc
    constructor
    · simp only [remote_discover, hreg]
      exact catchDiscover_ok _ _
    · simp [remote_discover, hreg, catchDiscover_trace, dispatchRequest, ht,
        _stdio_request, hc]
  · intro ht hu
    constructor
    · simp only [remote_discover, hreg]
      exact catchDiscover_ok _ _
    · cases hx : o.sse.httpxAvailable <;>
        simp [remote_discover, hreg, catchDiscover_trace, dispatchRequest, ht,
          _sse_request, hu, hx]

/-- Witness for the amended C3 on a stdio descriptor with no command key. -/
theorem c3_amended_witness :
    (∃ s, (remote_discover [("b", entryNoCmd)] "b" oracleOk).1 = Except.ok s) ∧
    (remote_discover [("b", entryNoCmd)] "b" oracleOk).2 = [] :=
  (c3_amended_missing_key_fails_before_any_io [("b", entryNoCmd)] "b" oracleOk
    entryNoCmd rfl).1 rfl rfl

/-- C5 counterexample: a handshake-phase read timeout is not surfaced as an
error kind distinct from a request-phase timeout: on the same descriptor, the
facade result of a call whose initialize read times out equals the facade
result of a call whose request-phase read times out — both are the generic
timeout outcome. -/
theorem c5_cex_handshake_timeout_not_distinct :
    (remote_discover [("a", entryStdio)] "a" oracleHsTimeout).1
      = (remote_discover [("a", entryStdio)] "a" oracleReqTimeout).1 ∧
    (remote_discover [("a", entryStdio)] "a" oracleHsTimeout).1
      = Except.ok ("Timeout connecting to \x27" ++ "a" ++ "\x27. Is the server running?") :=
  ⟨rfl, rfl⟩

/-- C5 as amended: a read timeout while reading the initialize response fails
the call with the timeout error (surfaced by the facade as the same timeout
outcome a request-phase timeout produces, not a distinct kind), a malformed
frame fails it with the decode error, and in either case the child is
terminated by the unconditional cleanup. -/
theorem c5_amended_handshake_failure_fails_and_cleans_up
    (server : ServerEntry) (method : String) (params : JVal)
    (formatter : JVal → Except PyExn String) (o : StdioOracle) (c : String)
    (hc : server.command = some c) (hs : o.spawnOk = true) (hw : o.initWriteOk = true) :
    (o.hsRead = ReadOutcome.timeout →
      (_stdio_request server method params formatter o).1 = Except.error PyExn.timeoutError) ∧
    (o.hsRead = ReadOutcome.badFrame →
      (_stdio_request server method params formatter o).1 = Except.error PyExn.jsonDecodeError) ∧
    (∃ pre, (_stdio_request server method params formatter o).2 = pre ++ stdioCleanup o) := by
  refine ⟨?_, ?_, ?_⟩
  · intro hr
    simp [stdio_request_split _ _ _ _ _ _ hc hs, stdioBody, hw, hr, _read_jsonrpc]
  · intro hr
    simp [stdio_request_split _ _ _ _ _ _ hc hs, stdioBody, hw, hr, _read_jsonrpc]
  · exact ⟨Event.spawn (c :: server.args) :: (stdioBody method params formatter o).2,
      by simp [stdio_request_split _ _ _ _ _ _ hc hs]⟩

/-- Witness for the amended C5 at a concrete handshake timeout. -/
theorem c5_amended_witness :
    (_stdio_request entryStdio "tools/list" (JVal.obj []) _format_tools
      oracleHsTimeout.stdio).1 = Except.error PyExn.timeoutError :=
  (c5_amended_handshake_failure_fails_and_cleans_up entryStdio "tools/list" (JVal.obj [])
    _format_tools oracleHsTimeout.stdio "x" rfl rfl rfl).1 rfl

/-- C6 counterexample: a decoded response mapping lacking both the result key
and the error key is not rejected as a malformed frame.  Concretely, a
request-phase frame carrying only jsonrpc and id keys makes the stdio call
succeed with the result key defaulted to an empty mapping (here formatted as
the no-tools sentinel), instead of failing. -/
theorem c6_cex_frame_without_result_or_error_not_rejected :
    ([("jsonrpc", JVal.str "2.0"), ("id", JVal.num 2)].lookup "result" = (none : Option JVal)) ∧
    ([("jsonrpc", JVal.str "2.0"), ("id", JVal.num 2)].lookup "error" = (none : Option JVal)) ∧
    (_stdio_request entryStdio "tools/list" (JVal.obj []) _format_tools
      oracleNoKeys.stdio).1 = Except.ok "No tools found on this server." :=
  ⟨rfl, rfl, rfl⟩

/-- C6 as amended: frame decoding fails with the decode error exactly when
the inbound line is not valid structured text; a decoded mapping lacking both
the result and error keys is not rejected — the result key defaults to the
empty mapping and the call proceeds into the formatter. -/
theorem c6_amended_decode_fails_only_on_invalid_text
    (server : ServerEntry) (method : String) (params : JVal)
    (formatter : JVal → Except PyExn String) (o : StdioOracle) (c : String)
    (h : JVal) (kvs : List (String × JVal))
    (hc : server.command = some c) (hs : o.spawnOk = true)
    (h1 : o.initWriteOk = true) (h2 : o.hsRead = ReadOutcome.frame h)
    (h3 : o.notifWriteOk = true) (h4 : o.reqWriteOk = true)
    (h5 : o.reqRead = ReadOutcome.frame (JVal.obj kvs))
    (he : kvs.lookup "error" = none) (hr : kvs.lookup "result" = none) :
    (∀ ro, _read_jsonrpc ro = Except.error PyExn.jsonDecodeError ↔ ro = ReadOutcome.badFrame) ∧
    (_stdio_request server method params formatter o).1 = formatter (JVal.obj []) := by
  constructor
  · intro ro
    cases ro <;> simp [_read_jsonrpc]
  · simp [stdio_request_split _ _ _ _ _ _ hc hs, stdioBody, h1, h2, h3, h4, h5,
      _read_jsonrpc, pyContains, pyGetD, he, hr]

/-- Witness for the amended C6 at the concrete keyless frame. -/
theorem c6_amended_witness :
    (∀ ro, _read_jsonrpc ro = Except.error PyExn.jsonDecodeError ↔ ro = ReadOutcome.badFrame) ∧
    (_stdio_request entryStdio "tools/list" (JVal.obj []) _format_tools
      oracleNoKeys.stdio).1 = _format_tools (JVal.obj []) :=
  c6_amended_decode_fails_only_on_invalid_text entryStdio "tools/list" (JVal.obj [])
    _format_tools oracleNoKeys.stdio "x" (JVal.obj [])
    [("jsonrpc", JVal.str "2.0"), ("id", JVal.num 2)]
    rfl rfl rfl rfl rfl rfl rfl rfl rfl

/-- C7 counterexample: the Authorization header is not attached whenever the
AUTH_TOKEN key is present: a descriptor whose env carries AUTH_TOKEN with the
empty string — the key is present — posts with no headers at all, because the
source tests the value for truthiness, not the key for presence. -/
theorem c7_cex_present_empty_token_attaches_no_header :
    (entrySseEmptyTok.env.lookup "AUTH_TOKEN" = some "") ∧
    (remote_discover [("a", entrySseEmptyTok)] "a" oracleOk).2
      = [Event.httpPost "http://x" [] (rpcEnvelope 1 "tools/list" (JVal.obj []))] :=
  ⟨rfl, rfl⟩

/-- C7 as amended: the HTTP POST of the remote transport carries the
Authorization bearer header if and only if AUTH_TOKEN is present in the
descriptor env with a non-empty value; a present but empty token attaches no
header. -/
theorem c7_amended_auth_header_iff_nonempty_token
    (server : ServerEntry) (method : String) (params : JVal)
    (formatter : JVal → Except PyExn String) (o : SseOracle) (u : String)
    (hu : server.url = some u) (hx : o.httpxAvailable = true) :
    (_sse_request server method params formatter o).2
      = [Event.httpPost (rstripSlashes u) (sseHeaders server.env)
          (rpcEnvelope 1 method params)] ∧
    (((sseHeaders server.env).lookup "Authorization").isSome ↔
      ∃ t, server.env.lookup "AUTH_TOKEN" = some t ∧ t ≠ "") := by
  constructor
  · cases hp : o.post <;> simp [_sse_request, hu, hx, hp]
    rename_i v
    cases hco : pyContains v "error" with
    | error e => simp [hco]
    | ok b =>
      cases b with
      | true =>
        cases hpi : pyIndex v "error" with
        | error e => simp [hco, hpi]
        | ok errv => simp [hco, hpi]
      | false =>
        cases hpg : pyGetD v "result" (JVal.obj []) with
        | error e => simp [hco, hpg]
        | ok r => simp [hco, hpg]
  · unfold sseHeaders
    cases hl : server.env.lookup "AUTH_TOKEN" with
    | none => simp [hl]
    | some t =>
      by_cases ht : t = "" <;> simp [ht]

/-- Witness for the amended C7 at a descriptor with a non-empty token. -/
theorem c7_amended_witness :
    (_sse_request entrySseTok "tools/list" (JVal.obj []) _format_tools oracleOk.sse).2
      = [Event.httpPost (rstripSlashes "http://x/") (sseHeaders entrySseTok.env)
          (rpcEnvelope 1 "tools/list" (JVal.obj []))] ∧
    (((sseHeaders entrySseTok.env).lookup "Authorization").isSome ↔
      ∃ t, entrySseTok.env.lookup "AUTH_TOKEN" = some t ∧ t ≠ "") :=
  c7_amended_auth_header_iff_nonempty_token entrySseTok "tools/list" (JVal.obj [])
    _format_tools oracleOk.sse "http://x/" rfl rfl

/-- C8: a downstream response whose decoded frame carries an error key fails
the call with the downstream error payload passed through into the same
rendered outcome on both transports: the process transport and the remote
transport both return the server-error outcome carrying the payload rendered
identically. -/
theorem c8_remote_error_passthrough_both_transports
    (server sseServer : ServerEntry) (method : String) (params : JVal)
    (formatter : JVal → Except PyExn String) (o : StdioOracle) (so : SseOracle)
    (c u : String) (h errv : JVal) (kvs dkvs : List (String × JVal))
    (hc : server.command = some c) (hs : o.spawnOk = true)
    (h1 : o.initWriteOk = true) (h2 : o.hsRead = ReadOutcome.frame h)
    (h3 : o.notifWriteOk = true) (h4 : o.reqWriteOk = true)
    (h5 : o.reqRead = ReadOutcome.frame (JVal.obj kvs))
    (he : kvs.lookup "error" = some errv)
    (hu : sseServer.url = some u) (hx : so.httpxAvailable = true)
    (hb : so.post = PostOutcome.body (JVal.obj dkvs))
    (hde : dkvs.lookup "error" = some errv) :
    (_stdio_request server method params formatter o).1
      = Except.ok ("Server error: " ++ pyStrTop errv) ∧
    (_sse_request sseServer method params formatter so).1
      = Except.ok ("Server error: " ++ pyStrTop errv) := by
  constructor
  · simp [stdio_request_split _ _ _ _ _ _ hc hs, stdioBody, h1, h2, h3, h4, h5,
      _read_jsonrpc, pyContains, pyIndex, he]
  · simp [_sse_request, hu, hx, hb, pyContains, pyIndex, hde]

/-- Witness for C8 at a concrete error payload on both transports. -/
theorem c8_witness :
    (_stdio_request entryStdio "tools/call" (JVal.obj []) _format_call_result
      oracleErrResp.stdio).1
      = Except.ok ("Server error: " ++ pyStrTop (JVal.obj [("code", JVal.num 1)])) ∧
    (_sse_request entrySseTok "tools/call" (JVal.obj []) _format_call_result
      oracleErrResp.sse).1
      = Except.ok ("Server error: " ++ pyStrTop (JVal.obj [("code", JVal.num 1)])) :=
  c8_remote_error_passthrough_both_transports entryStdio entrySseTok "tools/call"
    (JVal.obj []) _format_call_result oracleErrResp.stdio oracleErrResp.sse "x" "http://x/"
    (JVal.obj []) (JVal.obj [("code", JVal.num 1)])
    [("error", JVal.obj [("code", JVal.num 1)])] [("error", JVal.obj [("code", JVal.num 1)])]
    rfl rfl rfl rfl rfl rfl rfl rfl rfl rfl rfl rfl

/-! Totality lemmas for the formatters over well-formed mappings. -/

theorem formatParam_ok (k : String) (v : JVal) (hv : wfParamSchema v = true) :
    ∃ s, formatParam k v = Except.ok s := by
  cases v with
  | null => simp [wfParamSchema] at hv
  | bool b => simp [wfParamSchema] at hv
  | num n => simp [wfParamSchema] at hv
  | str s => simp [wfParamSchema] at hv
  | arr xs => simp [wfParamSchema] at hv
  | obj kvs => exact ⟨_, rfl⟩

theorem paramLines_ok (l : List (String × JVal))
    (hl : (l.all fun kv => wfParamSchema kv.2) = true) :
    ∃ ls, paramLines l = Except.ok ls := by
  induction l with
  | nil => exact ⟨[], rfl⟩
  | cons kv rest ih =>
    simp only [List.all_cons, Bool.and_eq_true] at hl
    obtain ⟨s, hs⟩ := formatParam_ok kv.1 kv.2 hl.1
    obtain ⟨ls, hls⟩ := ih hl.2
    exact ⟨s :: ls, by simp [paramLines, hs, hls]⟩

theorem toolLines_ok (t : JVal) (ht : wfTool t = true) :
    ∃ ls, toolLines t = Except.ok ls := by
  cases t with
  | null => simp [wfTool] at ht
  | bool b => simp [wfTool] at ht
  | num n => simp [wfTool] at ht
  | str s => simp [wfTool] at ht
  | arr xs => simp [wfTool] at ht
  | obj kvs =>
    simp only [wfTool, Bool.and_eq_true] at ht
    obtain ⟨hname, hrest⟩ := ht
    obtain ⟨nm, hnm⟩ := Option.isSome_iff_exists.mp hname
    cases hschema : (kvs.lookup "inputSchema").getD (JVal.obj []) with
    | null => rw [hschema] at hrest; simp at hrest
    | bool b => rw [hschema] at hrest; simp at hrest
    | num n => rw [hschema] at hrest; simp at hrest
    | str s => rw [hschema] at hrest; simp at hrest
    | arr xs => rw [hschema] at hrest; simp at hrest
    | obj skvs =>
      rw [hschema] at hrest
      simp only [] at hrest
      cases hprops : (skvs.lookup "properties").getD (JVal.obj []) with
      | null => rw [hprops] at hrest; simp at hrest
      | bool b => rw [hprops] at hrest; simp at hrest
      | num n => rw [hprops] at hrest; simp at hrest
      | str s => rw [hprops] at hrest; simp at hrest
      | arr xs => rw [hprops] at hrest; simp at hrest
      | obj props =>
        rw [hprops] at hrest
        simp only [] at hrest
        obtain ⟨ps, hps⟩ := paramLines_ok props hrest
        exact ⟨("  " ++ pyStrTop nm ++ ": "
            ++ pyStrTop ((kvs.lookup "description").getD (JVal.str ""))) :: ps,
          by simp [toolLines, pyIndex, hnm, pyGetD, hschema, hprops, pyItems, hps]⟩

theorem toolBlocks_ok (ts : List JVal) (hts : ts.all wfTool = true) :
    ∃ bs, toolBlocks ts = Except.ok bs := by
  induction ts with
  | nil => exact ⟨[], rfl⟩
  | cons t rest ih =>
    simp only [List.all_cons, Bool.and_eq_true] at hts
    obtain ⟨ls, hls⟩ := toolLines_ok t hts.1
    obtain ⟨bs, hbs⟩ := ih hts.2
    exact ⟨ls :: bs, by simp [toolBlocks, hls, hbs]⟩

theorem callParts_ok (items : List JVal) (h : items.all wfContentItem = true) :
    ∃ ps, callParts items = Except.ok ps := by
  induction items with
  | nil => exact ⟨[], rfl⟩
  | cons item rest ih =>
    simp only [List.all_cons, Bool.and_eq_true] at h
    obtain ⟨hitem, hrest⟩ := h
    obtain ⟨ps, hps⟩ := ih hrest
    cases item with
    | null => simp [wfContentItem] at hitem
    | bool b => simp [wfContentItem] at hitem
    | num n => simp [wfContentItem] at hitem
    | str s => simp [wfContentItem] at hitem
    | arr xs => simp [wfContentItem] at hitem
    | obj kvs =>
      simp only [wfContentItem] at hitem
      cases htv : (kvs.lookup "type").getD JVal.null with
      | str s =>
        rw [htv] at hitem
        simp only [] at hitem
        by_cases hst : s = "text"
        · rw [if_pos hst] at hitem
          cases htx : kvs.lookup "text" with
          | none => rw [htx] at hitem; simp at hitem
          | some tv =>
            cases tv with
            | str tx =>
              exact ⟨tx :: ps,
                by simp [callParts, pyGetD, htv, hst, pyIndex, htx, hps]⟩
            | null => rw [htx] at hitem; simp at hitem
            | bool b => rw [htx] at hitem; simp at hitem
            | num n => rw [htx] at hitem; simp at hitem
            | arr xs => rw [htx] at hitem; simp at hitem
            | obj okvs => rw [htx] at hitem; simp at hitem
        · exact ⟨jsonDumps (JVal.obj kvs) :: ps,
            by simp [callParts, pyGetD, htv, hst, hps]⟩
      | null => exact ⟨jsonDumps (JVal.obj kvs) :: ps, by simp [callParts, pyGetD, htv, hps]⟩
      | bool b => exact ⟨jsonDumps (JVal.obj kvs) :: ps, by simp [callParts, pyGetD, htv, hps]⟩
      | num n => exact ⟨jsonDumps (JVal.obj kvs) :: ps, by simp [callParts, pyGetD, htv, hps]⟩
      | arr xs => exact ⟨jsonDumps (JVal.obj kvs) :: ps, by simp [callParts, pyGetD, htv, hps]⟩
      | obj okvs => exact ⟨jsonDumps (JVal.obj kvs) :: ps, by simp [callParts, pyGetD, htv, hps]⟩

/-- C9: the result formatters are pure transforms (they are plain functions
of the result mapping, with no I/O in their bodies) and are total over every
well-formed result mapping of either shape family: they produce a formatted
string and no failure.  The source defines no unrecognized-shape failure at
all, so a failure can only arise from a mapping outside both shape
families. -/
theorem c9_formatters_total_on_well_formed :
    (∀ r, wfToolsResult r = true → ∃ s, _format_tools r = Except.ok s) ∧
    (∀ r, wfCallResult r = true → ∃ s, _format_call_result r = Except.ok s) := by
  constructor
  · intro r hr
    cases r with
    | null => simp [wfToolsResult] at hr
    | bool b => simp [wfToolsResult] at hr
    | num n => simp [wfToolsResult] at hr
    | str s => simp [wfToolsResult] at hr
    | arr xs => simp [wfToolsResult] at hr
    | obj kvs =>
      simp only [wfToolsResult] at hr
      cases htools : (kvs.lookup "tools").getD (JVal.arr []) with
      | null => rw [htools] at hr; simp at hr
      | bool b => rw [htools] at hr; simp at hr
      | num n => rw [htools] at hr; simp at hr
      | str s => rw [htools] at hr; simp at hr
      | obj okvs => rw [htools] at hr; simp at hr
      | arr ts =>
        rw [htools] at hr
        simp only [] at hr
        cases ts with
        | nil =>
          exact ⟨"No tools found on this server.",
            by simp [_format_tools, pyGetD, htools, pyTruthy]⟩
        | cons t rest =>
          obtain ⟨bs, hbs⟩ := toolBlocks_ok (t :: rest) hr
          exact ⟨"Available tools:\n" ++ String.intercalate "\n" bs.flatten,
            by simp [_format_tools, pyGetD, htools, pyTruthy, pyIter, hbs]⟩
  · intro r hr
    cases r with
    | null => simp [wfCallResult] at hr
    | bool b => simp [wfCallResult] at hr
    | num n => simp [wfCallResult] at hr
    | str s => simp [wfCallResult] at hr
    | arr xs => simp [wfCallResult] at hr
    | obj kvs =>
      simp only [wfCallResult] at hr
      cases hcontent : (kvs.lookup "content").getD (JVal.arr []) with
      | null => rw [hcontent] at hr; simp at hr
      | bool b => rw [hcontent] at hr; simp at hr
      | num n => rw [hcontent] at hr; simp at hr
      | str s => rw [hcontent] at hr; simp at hr
      | obj okvs => rw [hcontent] at hr; simp at hr
      | arr items =>
        rw [hcontent] at hr
        simp only [] at hr
        obtain ⟨ps, hps⟩ := callParts_ok items hr
        exact ⟨if ps.isEmpty then "(empty response)" else String.intercalate "\n" ps,
          by simp [_format_call_result, pyGetD, hcontent, pyIter, hps]⟩

/-- Witness for C9 at a concrete well-formed mapping of each shape. -/
theorem c9_witness :
    (∃ s, _format_tools (JVal.obj [("tools", JVal.arr [JVal.obj [("name", JVal.str "t")]])])
      = Except.ok s) ∧
    (∃ s, _format_call_result (JVal.obj [("content",
      JVal.arr [JVal.obj [("type", JVal.str "text"), ("text", JVal.str "hi")]])])
      = Except.ok s) :=
  ⟨c9_formatters_total_on_well_formed.1
      (JVal.obj [("tools", JVal.arr [JVal.obj [("name", JVal.str "t")]])]) rfl,
   c9_formatters_total_on_well_formed.2
      (JVal.obj [("content",
        JVal.arr [JVal.obj [("type", JVal.str "text"), ("text", JVal.str "hi")]])]) rfl⟩

/-! Rendering lemmas relating the source formatters to the spec-side
rendering. -/

theorem formatParam_spec (p : ParamSpec) :
    formatParam p.pname
      (JVal.obj [("type", JVal.str p.ptype), ("description", JVal.str p.pdesc)])
      = Except.ok (specParamLine p) := by
  cases hd : p.pdesc.isEmpty <;>
    simp [formatParam, pyGetD, pyTruthy, pyStrTop, specParamLine, hd, List.lookup]

theorem paramLines_spec (ps : List ParamSpec) :
    paramLines (ps.map ParamSpec.toField) = Except.ok (ps.map specParamLine) := by
  induction ps with
  | nil => rfl
  | cons p rest ih =>
    simp [paramLines, ParamSpec.toField, formatParam_spec, ih]

theorem toolLines_spec (t : ToolSpec) :
    toolLines (ToolSpec.toJVal t) = Except.ok (specToolBlock t) := by
  simp [toolLines, ToolSpec.toJVal, pyIndex, pyGetD, pyItems, List.lookup,
    paramLines_spec, specToolBlock, pyStrTop]

theorem toolBlocks_spec (ts : List ToolSpec) :
    toolBlocks (ts.map ToolSpec.toJVal) = Except.ok (ts.map specToolBlock) := by
  induction ts with
  | nil => rfl
  | cons t rest ih => simp [toolBlocks, toolLines_spec, ih]

theorem callParts_spec (items : List ContentItem) (h : noTextOther items = true) :
    callParts (items.map ContentItem.toJVal) = Except.ok (items.map specPart) := by
  induction items with
  | nil => rfl
  | cons it rest ih =>
    simp only [noTextOther, List.all_cons, Bool.and_eq_true] at h
    have hrest := ih (by simp [noTextOther, h.2])
    cases it with
    | text s =>
      simp [callParts, ContentItem.toJVal, pyGetD, pyIndex, List.lookup, hrest, specPart]
    | other kind fields =>
      have hk : ¬(kind = "text") := by
        have := h.1
        simp only [Bool.not_eq_true'] at this
        exact fun hc => by simp [hc] at this
      simp [callParts, ContentItem.toJVal, pyGetD, List.lookup, hk, hrest, specPart]

/-- C10: the tool-list formatter renders one line per tool (name and
description) followed by one indented line per declared parameter (name,
type, description) in the order the tools appeared, with the no-tools
sentinel line for an empty tool sequence; the tool-call formatter renders a
text item as its literal text and any other kind as its structured form
rendered as text, with the empty-response sentinel line for an empty content
sequence. -/
theorem c10_formatter_rendering :
    (∀ ts : List ToolSpec, _format_tools (toolsResult ts) = Except.ok (specToolsText ts)) ∧
    (_format_tools (toolsResult []) = Except.ok "No tools found on this server.") ∧
    (∀ items : List ContentItem, noTextOther items = true →
      _format_call_result (callResultJ items) = Except.ok (specCallText items)) ∧
    (_format_call_result (callResultJ []) = Except.ok "(empty response)") := by
  have htools : ∀ ts : List ToolSpec,
      _format_tools (toolsResult ts) = Except.ok (specToolsText ts) := by
    intro ts
    cases ts with
    | nil => rfl
    | cons t rest =>
      have hb := toolBlocks_spec (t :: rest)
      simp only [List.map_cons] at hb
      simp [_format_tools, toolsResult, pyGetD, pyTruthy, pyIter, hb, specToolsText]
  have hcall : ∀ items : List ContentItem, noTextOther items = true →
      _format_call_result (callResultJ items) = Except.ok (specCallText items) := by
    intro items h
    cases items with
    | nil => rfl
    | cons it rest =>
      have hc := callParts_spec (it :: rest) h
      simp only [List.map_cons] at hc
      simp [_format_call_result, callResultJ, pyGetD, pyIter, hc, specCallText]
  exact ⟨htools, htools [], hcall, hcall [] rfl⟩

/-- Witness for C10 at two concrete tools with declared parameters and a
concrete mixed content list. -/
theorem c10_witness :
    _format_tools (toolsResult
      [⟨"alpha", "first tool", [⟨"q", "string", "query text"⟩, ⟨"n", "integer", ""⟩]⟩,
       ⟨"beta", "second tool", [⟨"v", "string", "value"⟩]⟩])
      = Except.ok (specToolsText
      [⟨"alpha", "first tool", [⟨"q", "string", "query text"⟩, ⟨"n", "integer", ""⟩]⟩,
       ⟨"beta", "second tool", [⟨"v", "string", "value"⟩]⟩]) ∧
    _format_call_result (callResultJ
      [ContentItem.text "hello", ContentItem.other "image" [("data", JVal.str "zz")]])
      = Except.ok (specCallText
      [ContentItem.text "hello", ContentItem.other "image" [("data", JVal.str "zz")]]) :=
  ⟨c10_formatter_rendering.1
      [⟨"alpha", "first tool", [⟨"q", "string", "query text"⟩, ⟨"n", "integer", ""⟩]⟩,
       ⟨"beta", "second tool", [⟨"v", "string", "value"⟩]⟩],
   c10_formatter_rendering.2.2.1
      [ContentItem.text "hello", ContentItem.other "image" [("data", JVal.str "zz")]] rfl⟩
